import Mathlib

/-!
Verification development for the phase_6 orchestration core of the
Automated Auditorium Lighting repository (src/phase_6).

The Python orchestrator is shallowly embedded: each dataclass becomes a Lean
structure, each method a pure function with explicit state passing.  External
collaborators (phase_1 parsing, phase_2 emotion analysis, phase_3 retrieval,
phase_4 decision engine, phase_5 simulation) are black boxes per the design;
they are modelled as oracle fields of an `Env` record that say, for each call,
whether the collaborator returned a value or raised, exactly at the try/except
boundaries the runner draws around them.  Wall-clock reads (`time.time()` and
`datetime.now()`) are modelled by a single stream `timeline : Nat -> Nat` of
successive clock readings; each read consumes the next index, matching the
order of reads in the source.  Exceptions used for hard aborts become
`Except String` values threaded through the control flow, preserving all state
mutations performed before the raise, as Python in-place mutation does.
-/

namespace Phase6

/-- config_models.PhaseStatus -/
inductive PhaseStatus where
  | pending
  | running
  | success
  | failed
  | skipped
deriving DecidableEq, Repr

/-- The structured output summaries the runner attaches to successful phase
results (the concrete dict literals built in pipeline_runner.py). -/
inductive PhaseOutput where
  | sceneCount (n : Nat)
  | emotionLabel (e : Option String)
  | contextLength (n : Nat)
  | groupsCount (n : Nat)
deriving DecidableEq, Repr

/-- config_models.PhaseResult -/
structure PhaseResult where
  phase_name : String
  status : PhaseStatus
  output : Option PhaseOutput := none
  error_message : Option String := none
  duration_seconds : Int := 0
deriving DecidableEq, Repr

/-- PhaseResult.is_failed property -/
def PhaseResult.is_failed (r : PhaseResult) : Bool :=
  r.status == PhaseStatus.failed

/-- PhaseResult.is_success property -/
def PhaseResult.is_success (r : PhaseResult) : Bool :=
  r.status == PhaseStatus.success

/-- config_models.PipelineResult -/
structure PipelineResult where
  script_path : String
  phase_results : List PhaseResult := []
  total_duration_seconds : Int := 0
  final_status : PhaseStatus := PhaseStatus.pending
  output_paths : List (String × String) := []
deriving DecidableEq, Repr

/-- PipelineResult.add_phase_result: appends the result, accumulates its
duration, and flips final_status to failed when the result is failed. -/
def PipelineResult.add_phase_result (p : PipelineResult) (r : PhaseResult) :
    PipelineResult :=
  let p := { p with
    phase_results := p.phase_results ++ [r],
    total_duration_seconds := p.total_duration_seconds + r.duration_seconds }
  if r.is_failed then { p with final_status := PhaseStatus.failed } else p

/-- PipelineResult.mark_complete: set success unless already failed. -/
def PipelineResult.mark_complete (p : PipelineResult) : PipelineResult :=
  if p.final_status ≠ PhaseStatus.failed then
    { p with final_status := PhaseStatus.success }
  else p

/-- config_models.PipelineConfig -/
structure PipelineConfig where
  enable_phase_5 : Bool := true
  enable_phase_7 : Bool := true
  enable_phase_8 : Bool := false
  demo_mode : Bool := false
  use_llm : Bool := false
  output_dir : Option String := none
deriving DecidableEq, Repr

/-- state_tracker.ExecutionState -/
structure ExecutionState where
  current_phase : Option String := none
  current_script : Option String := none
  current_scene_id : Option String := none
  current_scene_index : Nat := 0
  total_scenes : Nat := 0
  status : PhaseStatus := PhaseStatus.pending
  started_at : Option Nat := none
  completed_at : Option Nat := none
  phase_results : List PhaseResult := []
  output_paths : List (String × String) := []
  last_error : Option String := none
deriving DecidableEq, Repr

/-- state_tracker.StateTracker: the mutable tracker object. -/
structure StateTracker where
  state : ExecutionState := {}
  phase_start_time : Option Nat := none
deriving DecidableEq, Repr

/-- StateTracker.__init__ -/
def StateTracker.init : StateTracker := {}

/-- StateTracker.get_state -/
def StateTracker.get_state (t : StateTracker) : ExecutionState := t.state

/-- StateTracker.start_pipeline: replaces the state with a fresh
ExecutionState (running, started now).  phase_start_time is untouched. -/
def StateTracker.start_pipeline (t : StateTracker) (script_path : String)
    (total_scenes : Nat) (now : Nat) : StateTracker :=
  { t with state :=
    { current_script := some script_path,
      total_scenes := total_scenes,
      status := PhaseStatus.running,
      started_at := some now } }

/-- StateTracker.start_phase -/
def StateTracker.start_phase (t : StateTracker) (phase_name : String)
    (now : Nat) : StateTracker :=
  { state := { t.state with
      current_phase := some phase_name,
      status := PhaseStatus.running },
    phase_start_time := some now }

/-- The duration computed by StateTracker.complete_phase: Python evaluates
`time.time() - self._phase_start_time if self._phase_start_time else 0.0`,
so a missing or zero (falsy) start time yields 0 without reading the clock. -/
def trackerDuration (start : Option Nat) (now : Nat) : Int :=
  match start with
  | none => 0
  | some ps => if ps = 0 then 0 else (now : Int) - (ps : Int)

/-- Whether Python would read the clock in complete_phase (the conditional
expression only evaluates `time.time()` when `_phase_start_time` is truthy). -/
def trackerReadsClock (start : Option Nat) : Bool :=
  match start with
  | none => false
  | some ps => ps != 0

/-- StateTracker.complete_phase: builds the PhaseResult, appends it to the
state, and on failure marks the overall status failed and records last_error.
Clears phase_start_time.  Returns the constructed result. -/
def StateTracker.complete_phase (t : StateTracker) (phase_name : String)
    (status : PhaseStatus) (output : Option PhaseOutput)
    (error_message : Option String) (now : Nat) :
    PhaseResult × StateTracker :=
  let r : PhaseResult :=
    { phase_name := phase_name,
      status := status,
      output := output,
      error_message := error_message,
      duration_seconds := trackerDuration t.phase_start_time now }
  let st := { t.state with phase_results := t.state.phase_results ++ [r] }
  let st :=
    if status = PhaseStatus.failed then
      { st with status := PhaseStatus.failed, last_error := error_message }
    else st
  (r, { state := st, phase_start_time := none })

/-- StateTracker.skip_phase -/
def StateTracker.skip_phase (t : StateTracker) (phase_name : String)
    (reason : String) : PhaseResult × StateTracker :=
  let r : PhaseResult :=
    { phase_name := phase_name,
      status := PhaseStatus.skipped,
      error_message := some reason,
      duration_seconds := 0 }
  (r, { t with state :=
    { t.state with phase_results := t.state.phase_results ++ [r] } })

/-- StateTracker.set_current_scene -/
def StateTracker.set_current_scene (t : StateTracker) (scene_id : String)
    (scene_index : Nat) : StateTracker :=
  { t with state := { t.state with
      current_scene_id := some scene_id,
      current_scene_index := scene_index } }

/-- StateTracker.complete_pipeline -/
def StateTracker.complete_pipeline (t : StateTracker) (status : PhaseStatus)
    (now : Nat) : StateTracker :=
  { t with state := { t.state with
      status := status,
      completed_at := some now,
      current_phase := none } }

/-- The summary dict returned by StateTracker.get_summary. -/
structure Summary where
  script : Option String
  status : PhaseStatus
  current_phase : Option String
  scenes_processed : Nat
  total_scenes : Nat
  phases_completed : Nat
  phases_failed : Nat
  phases_skipped : Nat
  last_error : Option String
deriving DecidableEq, Repr

/-- StateTracker.get_summary -/
def StateTracker.get_summary (t : StateTracker) : Summary :=
  let state := t.state
  { script := state.current_script,
    status := state.status,
    current_phase := state.current_phase,
    scenes_processed := state.current_scene_index,
    total_scenes := state.total_scenes,
    phases_completed := (state.phase_results.filter (fun r => r.is_success)).length,
    phases_failed := (state.phase_results.filter (fun r => r.is_failed)).length,
    phases_skipped := (state.phase_results.filter
      (fun r => r.status == PhaseStatus.skipped)).length,
    last_error := state.last_error }

/-- The emotion analysis dict produced by phase_2's analyze_emotion, and the
neutral default the runner substitutes on failure. -/
structure Emotion where
  primary_emotion : Option String := none
  confidence : Rat := 0
deriving DecidableEq, Repr

/-- A scene record as the orchestrator sees it: phase_1 produces scenes, the
runner reads scene_id (with a generated default) and writes the emotion
field.  Scene content is opaque to the orchestrator and is consumed only by
the collaborator oracles, so it is kept as a plain string. -/
structure Scene where
  scene_id : Option String := none
  content : String := ""
  emotion : Option Emotion := none
deriving DecidableEq, Repr

/-- phase_4 LightingParameters: the intensity field the contract check reads.
Python floats are modelled as rationals; the comparisons are exact. -/
structure LightingParameters where
  intensity : Rat
deriving DecidableEq, Repr

/-- phase_4 LightingGroup -/
structure LightingGroup where
  group_id : String
  parameters : LightingParameters
deriving DecidableEq, Repr

/-- phase_4 LightingInstruction -/
structure LightingInstruction where
  groups : List LightingGroup
deriving DecidableEq, Repr

/-- Rendering of the intensity value interpolated into the contract-violation
message (Python renders the float; the model renders the rational). -/
def ratStr (q : Rat) : String :=
  toString q.num ++ "/" ++ toString q.den

/-- PipelineRunner._validate_lighting_instruction over the list of groups:
first violation raises, in iteration order. -/
def validateGroups : List LightingGroup → Except String Unit
  | [] => Except.ok ()
  | g :: rest =>
    if g.group_id = "" then
      Except.error "Missing group_id in LightingInstruction"
    else if g.parameters.intensity < 0 ∨ g.parameters.intensity > 1 then
      Except.error ("Intensity " ++ ratStr g.parameters.intensity ++
        " out of range [0, 1]")
    else validateGroups rest

/-- PipelineRunner._validate_lighting_instruction: returns the
ContractViolationError message instead of raising. -/
def validate_lighting_instruction (instruction : LightingInstruction) :
    Except String Unit :=
  validateGroups instruction.groups

/-- Outcome of the phase_5 try block: the module import and rendering
succeed, the module import raises ImportError, or some other exception is
raised. -/
inductive Phase5Outcome where
  | ok
  | importError
  | error (msg : String)
deriving DecidableEq, Repr

/-- Oracles for the black-box collaborators of one run, plus the clock.
`timeline k` is the value of the k-th wall-clock read of the run. -/
structure Env where
  timeline : Nat → Nat
  parse : Except String (List Scene)
  analyze_emotion : Scene → Except String Emotion
  build_context : Scene → Except String String
  generate_instruction : Scene → Except String LightingInstruction
  phase5 : Phase5Outcome

/-- The state threaded through one PipelineRunner.run invocation: the tracker
and result mutated in place by the Python code, the index of the next clock
read, and a log of which collaborators were invoked. -/
structure RunnerSt where
  tracker : StateTracker
  result : PipelineResult
  clock : Nat
  calls : List String
deriving Repr

/-- result.add_phase_result(...) on the threaded state. -/
def addResult (st : RunnerSt) (r : PhaseResult) : RunnerSt :=
  { st with result := st.result.add_phase_result r }

/-- Record an invocation of a black-box collaborator. -/
def logCall (st : RunnerSt) (c : String) : RunnerSt :=
  { st with calls := st.calls ++ [c] }

/-- self.state.start_phase(name): reads the clock once. -/
def startPhase (env : Env) (st : RunnerSt) (phase_name : String) : RunnerSt :=
  { st with
    tracker := st.tracker.start_phase phase_name (env.timeline st.clock),
    clock := st.clock + 1 }

/-- self.state.complete_phase(...): reads the clock only when the recorded
phase start time is truthy, exactly as the Python conditional does. -/
def completePhase (env : Env) (st : RunnerSt) (phase_name : String)
    (status : PhaseStatus) (output : Option PhaseOutput)
    (error_message : Option String) : PhaseResult × RunnerSt :=
  let ticks := if trackerReadsClock st.tracker.phase_start_time then 1 else 0
  let (r, tr) := st.tracker.complete_phase phase_name status output
    error_message (env.timeline st.clock)
  (r, { st with tracker := tr, clock := st.clock + ticks })

/-- self.state.skip_phase(...) on the threaded state. -/
def skipPhase (st : RunnerSt) (phase_name : String) (reason : String) :
    PhaseResult × RunnerSt :=
  let (r, tr) := st.tracker.skip_phase phase_name reason
  (r, { st with tracker := tr })

/-- self.state.complete_pipeline(status): reads the clock once
(datetime.now). -/
def completePipeline (env : Env) (st : RunnerSt) (status : PhaseStatus) :
    RunnerSt :=
  { st with
    tracker := st.tracker.complete_pipeline status (env.timeline st.clock),
    clock := st.clock + 1 }

/-- PipelineRunner._run_phase_1: parse the script.  REQUIRED; on failure the
failed result is recorded and a HardFailureError is raised. -/
def run_phase_1 (env : Env) (st : RunnerSt) :
    Except String (List Scene) × RunnerSt :=
  let st := startPhase env st "phase_1"
  let st := logCall st "parse"
  match env.parse with
  | Except.ok scenes =>
    let (pr, st) := completePhase env st "phase_1" PhaseStatus.success
      (some (PhaseOutput.sceneCount scenes.length)) none
    (Except.ok scenes, addResult st pr)
  | Except.error e =>
    let (pr, st) := completePhase env st "phase_1" PhaseStatus.failed
      none (some e)
    (Except.error ("Phase 1 failed: " ++ e), addResult st pr)

/-- PipelineRunner._run_phase_2: emotion enrichment.  OPTIONAL; on failure the
scene gets the neutral default and execution continues. -/
def run_phase_2 (env : Env) (scene : Scene) (st : RunnerSt) :
    Scene × RunnerSt :=
  let st := startPhase env st "phase_2"
  let st := logCall st "enrich"
  match env.analyze_emotion scene with
  | Except.ok emotion_analysis =>
    let scene := { scene with emotion := some emotion_analysis }
    let (pr, st) := completePhase env st "phase_2" PhaseStatus.success
      (some (PhaseOutput.emotionLabel emotion_analysis.primary_emotion)) none
    (scene, addResult st pr)
  | Except.error e =>
    let scene := { scene with
      emotion := some { primary_emotion := some "neutral", confidence := 0 } }
    let (pr, st) := completePhase env st "phase_2" PhaseStatus.failed
      none (some e)
    (scene, addResult st pr)

/-- PipelineRunner._run_phase_3: RAG retrieval.  REQUIRED; raises a
HardFailureError on any exception. -/
def run_phase_3 (env : Env) (scene : Scene) (st : RunnerSt) :
    Except String String × RunnerSt :=
  let st := startPhase env st "phase_3"
  let st := logCall st "retrieve"
  match env.build_context scene with
  | Except.ok context =>
    let (pr, st) := completePhase env st "phase_3" PhaseStatus.success
      (some (PhaseOutput.contextLength context.length)) none
    (Except.ok context, addResult st pr)
  | Except.error e =>
    let (pr, st) := completePhase env st "phase_3" PhaseStatus.failed
      none (some e)
    (Except.error ("Phase 3 failed: " ++ e), addResult st pr)

/-- PipelineRunner._run_phase_4: decision engine plus the contract check.
REQUIRED; either an engine exception or a ContractViolationError yields a
failed result and a HardFailureError.  The rag_context argument is accepted
but, as in the source, not passed to the engine. -/
def run_phase_4 (env : Env) (scene : Scene) (_rag_context : String)
    (st : RunnerSt) : Except String LightingInstruction × RunnerSt :=
  let st := startPhase env st "phase_4"
  let st := logCall st "decide"
  match env.generate_instruction scene with
  | Except.error e =>
    let (pr, st) := completePhase env st "phase_4" PhaseStatus.failed
      none (some e)
    (Except.error ("Phase 4 failed: " ++ e), addResult st pr)
  | Except.ok instruction =>
    match validate_lighting_instruction instruction with
    | Except.error v =>
      let (pr, st) := completePhase env st "phase_4" PhaseStatus.failed
        none (some v)
      (Except.error ("Phase 4 contract violation: " ++ v), addResult st pr)
    | Except.ok _ =>
      let (pr, st) := completePhase env st "phase_4" PhaseStatus.success
        (some (PhaseOutput.groupsCount instruction.groups.length)) none
      (Except.ok instruction, addResult st pr)

/-- PipelineRunner._run_phase_5: simulation.  OPTIONAL; ImportError is
recorded as skipped, any other exception as failed, never a hard abort. -/
def run_phase_5 (env : Env) (_lighting_instructions : List LightingInstruction)
    (st : RunnerSt) : RunnerSt :=
  let st := startPhase env st "phase_5"
  let st := logCall st "simulate"
  match env.phase5 with
  | Phase5Outcome.ok =>
    let (pr, st) := completePhase env st "phase_5" PhaseStatus.success
      none none
    addResult st pr
  | Phase5Outcome.importError =>
    let (pr, st) := completePhase env st "phase_5" PhaseStatus.skipped
      none (some "Module not available")
    addResult st pr
  | Phase5Outcome.error e =>
    let (pr, st) := completePhase env st "phase_5" PhaseStatus.failed
      none (some e)
    addResult st pr

/-- PipelineRunner._run_phase_7: evaluation.  The try body of the source only
records a skipped result (the phase_7 import is commented out), so this is
deterministic; the except branches are dead code. -/
def run_phase_7 (env : Env)
    (_lighting_instructions : List LightingInstruction) (st : RunnerSt) :
    RunnerSt :=
  let st := startPhase env st "phase_7"
  let (pr, st) := completePhase env st "phase_7" PhaseStatus.skipped
    none (some "Phase 7 not yet implemented")
  addResult st pr

/-- Python f-string scene_{idx:03d}: zero-padded default scene id. -/
def pad3 (n : Nat) : String :=
  if n < 10 then "00" ++ toString n
  else if n < 100 then "0" ++ toString n
  else toString n

/-- The per-scene loop of PipelineRunner.run: set_current_scene, then
phases 2, 3, 4 for each scene in order, accumulating the instructions;
a hard failure from phase 3 or 4 aborts the loop. -/
def processScenes (env : Env) :
    List Scene → Nat → List LightingInstruction → RunnerSt →
    Except String (List LightingInstruction) × RunnerSt
  | [], _, acc, st => (Except.ok acc, st)
  | scene :: rest, idx, acc, st =>
    let scene_id := scene.scene_id.getD ("scene_" ++ pad3 idx)
    let st := { st with
      tracker := st.tracker.set_current_scene scene_id idx }
    let (scene, st) := run_phase_2 env scene st
    match run_phase_3 env scene st with
    | (Except.error e, st) => (Except.error e, st)
    | (Except.ok context, st) =>
      match run_phase_4 env scene context st with
      | (Except.error e, st) => (Except.error e, st)
      | (Except.ok instruction, st) =>
        processScenes env rest (idx + 1) (acc ++ [instruction]) st

/-- The tail of the success path of PipelineRunner.run: phases 5, 7, 8 (each
gated by configuration), then result.mark_complete() and
state.complete_pipeline(SUCCESS). -/
def runTail (env : Env) (config : PipelineConfig)
    (lighting_instructions : List LightingInstruction) (st : RunnerSt) :
    RunnerSt :=
  let st :=
    if config.enable_phase_5 then
      run_phase_5 env lighting_instructions st
    else
      let (pr, st) := skipPhase st "phase_5" "Disabled by configuration"
      addResult st pr
  let st :=
    if config.enable_phase_7 then
      run_phase_7 env lighting_instructions st
    else
      let (pr, st) := skipPhase st "phase_7" "Disabled by configuration"
      addResult st pr
  let st :=
    if config.enable_phase_8 then
      let (pr, st) := skipPhase st "phase_8" "Not implemented"
      addResult st pr
    else st
  let st := { st with result := st.result.mark_complete }
  completePipeline env st PhaseStatus.success

/-- The except-HardFailureError handler of PipelineRunner.run: mark the
result failed and complete the pipeline as failed. -/
def onHardFailure (env : Env) (st : RunnerSt) : RunnerSt :=
  let st := { st with
    result := { st.result with final_status := PhaseStatus.failed } }
  completePipeline env st PhaseStatus.failed

/-- The part of the try/except body of PipelineRunner.run that follows a
successful parse: the scene loop, then the tail; a HardFailureError raised in
the loop lands in the handler. -/
def runScenesTail (env : Env) (config : PipelineConfig)
    (scenes : List Scene) (st : RunnerSt) : RunnerSt :=
  match processScenes env scenes 0 [] st with
  | (Except.error _, st) => onHardFailure env st
  | (Except.ok lighting_instructions, st) =>
    runTail env config lighting_instructions st

/-- The try/except body of PipelineRunner.run, after the initial clock read:
phase 1, then start_pipeline (which replaces the tracker state), the scene
loop, and the tail; any HardFailureError lands in the handler. -/
def runBody (env : Env) (config : PipelineConfig) (script_path : String)
    (st : RunnerSt) : RunnerSt :=
  match run_phase_1 env st with
  | (Except.error _, st) => onHardFailure env st
  | (Except.ok scenes, st) =>
    runScenesTail env config scenes { st with
      tracker := st.tracker.start_pipeline script_path scenes.length
        (env.timeline st.clock),
      clock := st.clock + 1 }

/-- The value returned to the caller of PipelineRunner.run, together with the
final tracker (for get_state / get_summary), the call log, and the number of
clock reads consumed. -/
structure RunOutcome where
  result : PipelineResult
  tracker : StateTracker
  calls : List String
  clock : Nat
deriving Repr

/-- The final statements of PipelineRunner.run: overwrite
total_duration_seconds with the wall-clock time since the initial read. -/
def finishRun (env : Env) (pipeline_start : Nat) (st : RunnerSt) :
    RunOutcome :=
  let endTime := env.timeline st.clock
  { result := { st.result with
      total_duration_seconds := (endTime : Int) - (pipeline_start : Int) },
    tracker := st.tracker,
    calls := st.calls,
    clock := st.clock + 1 }

/-- PipelineRunner.run for one input, with a fresh runner (fresh tracker), as
BatchExecutor.run_single constructs it.  Total: every fault modelled by the
oracles is caught inside, never propagated to the caller. -/
def run (env : Env) (config : PipelineConfig) (script_path : String) :
    RunOutcome :=
  let st0 : RunnerSt :=
    { tracker := StateTracker.init,
      result := { script_path := script_path },
      clock := 1,
      calls := [] }
  let pipeline_start := env.timeline 0
  finishRun env pipeline_start (runBody env config script_path st0)

/-- BatchExecutor.run_single: a fresh PipelineRunner bound to the shared
configuration, returning its PipelineResult. -/
def run_single (config : PipelineConfig) (env : Env) (script_path : String) :
    PipelineResult :=
  (run env config script_path).result

/-- BatchExecutor._run_sequential: process the scripts one at a time in input
order.  Each input has its own collaborator oracle, indexed by position. -/
def run_sequential (config : PipelineConfig) (envOf : Nat → Env) :
    List String → Nat → List PipelineResult
  | [], _ => []
  | script_path :: rest, i =>
    run_single config (envOf i) script_path ::
      run_sequential config envOf rest (i + 1)

/-- The placeholder result _run_parallel stores when a worker raises:
PipelineResult(script_path=..., final_status=FAILED), all other fields
defaulted — in particular an empty phase_results list. -/
def failedPlaceholder (script_path : String) : PipelineResult :=
  { script_path := script_path, final_status := PhaseStatus.failed }

/-- What future.result() delivers for index idx in _run_parallel: the run
result, unless the worker for that index raised, in which case the except
branch builds the failed placeholder. -/
def workerOutcome (config : PipelineConfig) (envOf : Nat → Env)
    (script_paths : List String) (workerFault : Nat → Option String)
    (idx : Nat) : PipelineResult :=
  match workerFault idx with
  | some _ => failedPlaceholder (script_paths.getD idx "")
  | none => run_single config (envOf idx) (script_paths.getD idx "")

/-- BatchExecutor._run_parallel: results start as [None] * n; as each future
completes (in the completion order sched, a permutation of the indices), its
slot is written.  Workers share only the immutable configuration, so the
value written at idx depends only on idx. -/
def run_parallel (config : PipelineConfig) (envOf : Nat → Env)
    (script_paths : List String) (workerFault : Nat → Option String)
    (sched : List Nat) : List (Option PipelineResult) :=
  sched.foldl
    (fun results idx =>
      results.set idx (some (workerOutcome config envOf script_paths
        workerFault idx)))
    (List.replicate script_paths.length none)

deriving instance DecidableEq for Except

/-- The per-result invariant that actually holds of every PhaseResult the
orchestrator records: an error_message is present exactly on failed and
skipped results (skips carry their reason there), and an output summary is
only ever attached to successful results. -/
def resInv (r : PhaseResult) : Prop :=
  (r.error_message.isSome ↔
    (r.status = PhaseStatus.failed ∨ r.status = PhaseStatus.skipped)) ∧
  (r.output.isSome → r.status = PhaseStatus.success)

/-- Whether a phase-5 outcome is the exception case. -/
def Phase5Outcome.isErr : Phase5Outcome → Bool
  | Phase5Outcome.error _ => true
  | _ => false

/-- All per-scene collaborators succeed, and every decision artifact they
produce passes the contract check. -/
def EnvScenesOk (env : Env) : Prop :=
  (∀ s, ∃ e, env.analyze_emotion s = Except.ok e) ∧
  (∀ s, ∃ c, env.build_context s = Except.ok c) ∧
  (∀ s, ∃ i, env.generate_instruction s = Except.ok i ∧
    validate_lighting_instruction i = Except.ok ())

lemma run_phase_2_spec (env : Env) (s : Scene) (st : RunnerSt) :
    ∃ r : PhaseResult,
      (run_phase_2 env s st).2.result.phase_results =
        st.result.phase_results ++ [r] ∧
      (run_phase_2 env s st).2.tracker.state.phase_results =
        st.tracker.state.phase_results ++ [r] ∧
      (run_phase_2 env s st).2.result.final_status =
        (if r.is_failed then PhaseStatus.failed else st.result.final_status) ∧
      (run_phase_2 env s st).2.calls = st.calls ++ ["enrich"] ∧
      r.phase_name = "phase_2" ∧ resInv r ∧
      (r.status = PhaseStatus.success ∨ r.status = PhaseStatus.failed) ∧
      (∀ e, env.analyze_emotion s = Except.ok e →
        r.status = PhaseStatus.success) := by
  cases h : env.analyze_emotion s with
  | ok e =>
    simp only [run_phase_2, h]
    exact ⟨_, rfl, rfl, rfl, rfl, rfl,
      by simp [resInv, completePhase, StateTracker.complete_phase],
      Or.inl rfl, fun _ _ => rfl⟩
  | error e =>
    simp only [run_phase_2, h]
    exact ⟨_, rfl, rfl, rfl, rfl, rfl,
      by simp [resInv, completePhase, StateTracker.complete_phase],
      Or.inr rfl, fun e2 h2 => by cases h2⟩

lemma run_phase_3_spec (env : Env) (s : Scene) (st : RunnerSt) :
    ∃ r : PhaseResult,
      (run_phase_3 env s st).2.result.phase_results =
        st.result.phase_results ++ [r] ∧
      (run_phase_3 env s st).2.tracker.state.phase_results =
        st.tracker.state.phase_results ++ [r] ∧
      (run_phase_3 env s st).2.result.final_status =
        (if r.is_failed then PhaseStatus.failed else st.result.final_status) ∧
      (run_phase_3 env s st).2.calls = st.calls ++ ["retrieve"] ∧
      r.phase_name = "phase_3" ∧ resInv r ∧
      (∀ c, env.build_context s = Except.ok c →
        (run_phase_3 env s st).1 = Except.ok c ∧
        r.status = PhaseStatus.success) ∧
      (∀ e, env.build_context s = Except.error e →
        (run_phase_3 env s st).1 = Except.error ("Phase 3 failed: " ++ e) ∧
        r.status = PhaseStatus.failed ∧ r.error_message = some e) := by
  cases h : env.build_context s with
  | ok c =>
    simp only [run_phase_3, h]
    refine ⟨_, rfl, rfl, rfl, rfl, rfl, ?_, ?_, ?_⟩
    · simp [resInv, completePhase, StateTracker.complete_phase]
    · intro c2 h2
      cases h2
      exact ⟨rfl, rfl⟩
    · intro e2 h2
      cases h2
  | error e =>
    simp only [run_phase_3, h]
    refine ⟨_, rfl, rfl, rfl, rfl, rfl, ?_, ?_, ?_⟩
    · simp [resInv, completePhase, StateTracker.complete_phase]
    · intro c2 h2
      cases h2
    · intro e2 h2
      cases h2
      exact ⟨rfl, rfl, rfl⟩

lemma run_phase_4_spec (env : Env) (s : Scene) (ctx : String)
    (st : RunnerSt) :
    ∃ r : PhaseResult,
      (run_phase_4 env s ctx st).2.result.phase_results =
        st.result.phase_results ++ [r] ∧
      (run_phase_4 env s ctx st).2.tracker.state.phase_results =
        st.tracker.state.phase_results ++ [r] ∧
      (run_phase_4 env s ctx st).2.result.final_status =
        (if r.is_failed then PhaseStatus.failed else st.result.final_status) ∧
      (run_phase_4 env s ctx st).2.calls = st.calls ++ ["decide"] ∧
      r.phase_name = "phase_4" ∧ resInv r ∧
      (∀ e, env.generate_instruction s = Except.error e →
        (run_phase_4 env s ctx st).1 =
          Except.error ("Phase 4 failed: " ++ e) ∧
        r.status = PhaseStatus.failed ∧ r.error_message = some e) ∧
      (∀ i v, env.generate_instruction s = Except.ok i →
        validate_lighting_instruction i = Except.error v →
        (run_phase_4 env s ctx st).1 =
          Except.error ("Phase 4 contract violation: " ++ v) ∧
        r.status = PhaseStatus.failed ∧ r.error_message = some v) ∧
      (∀ i, env.generate_instruction s = Except.ok i →
        validate_lighting_instruction i = Except.ok () →
        (run_phase_4 env s ctx st).1 = Except.ok i ∧
        r.status = PhaseStatus.success) := by
  cases h : env.generate_instruction s with
  | error e =>
    simp only [run_phase_4, h]
    refine ⟨_, rfl, rfl, rfl, rfl, rfl, ?_, ?_, ?_, ?_⟩
    · simp [resInv, completePhase, StateTracker.complete_phase]
    · intro e2 h2
      cases h2
      exact ⟨rfl, rfl, rfl⟩
    · intro i v h2
      cases h2
    · intro i h2
      cases h2
  | ok i =>
    cases hv : validate_lighting_instruction i with
    | error v =>
      simp only [run_phase_4, h, hv]
      refine ⟨_, rfl, rfl, rfl, rfl, rfl, ?_, ?_, ?_, ?_⟩
      · simp [resInv, completePhase, StateTracker.complete_phase]
      · intro e2 h2
        cases h2
      · intro i2 v2 h2 hv2
        cases h2
        rw [hv] at hv2
        cases hv2
        exact ⟨rfl, rfl, rfl⟩
      · intro i2 h2 hv2
        cases h2
        rw [hv] at hv2
        cases hv2
    | ok u =>
      cases u
      simp only [run_phase_4, h, hv]
      refine ⟨_, rfl, rfl, rfl, rfl, rfl, ?_, ?_, ?_, ?_⟩
      · simp [resInv, completePhase, StateTracker.complete_phase]
      · intro e2 h2
        cases h2
      · intro i2 v2 h2 hv2
        cases h2
        rw [hv] at hv2
        cases hv2
      · intro i2 h2 hv2
        cases h2
        exact ⟨rfl, rfl⟩

lemma processScenes_spec (env : Env) (scenes : List Scene) :
    ∀ (idx : Nat) (acc : List LightingInstruction) (st : RunnerSt),
    ∃ app : List PhaseResult,
      (processScenes env scenes idx acc st).2.result.phase_results =
        st.result.phase_results ++ app ∧
      (processScenes env scenes idx acc st).2.tracker.state.phase_results =
        st.tracker.state.phase_results ++ app ∧
      ∀ r ∈ app,
        (r.phase_name = "phase_2" ∨ r.phase_name = "phase_3" ∨
          r.phase_name = "phase_4") ∧ resInv r := by
  induction scenes with
  | nil =>
    intro idx acc st
    exact ⟨[], by simp [processScenes], by simp [processScenes], by simp⟩
  | cons s rest ih =>
    intro idx acc st
    simp only [processScenes]
    set st1 : RunnerSt := { st with
      tracker := st.tracker.set_current_scene
        (s.scene_id.getD ("scene_" ++ pad3 idx)) idx } with hst1
    obtain ⟨r2, h2a, h2b, h2c, h2d, h2e, h2f, h2g, h2h⟩ :=
      run_phase_2_spec env s st1
    rcases hp2 : run_phase_2 env s st1 with ⟨s2, st2⟩
    rw [hp2] at h2a h2b
    simp only at h2a h2b
    obtain ⟨r3, h3a, h3b, h3c, h3d, h3e, h3f, h3g, h3h⟩ :=
      run_phase_3_spec env s2 st2
    rcases hp3 : run_phase_3 env s2 st2 with ⟨out3, st3⟩
    rw [hp3] at h3a h3b
    simp only at h3a h3b
    cases hb : env.build_context s2 with
    | error e =>
      obtain ⟨hout, hst3, herr⟩ := h3h e hb
      rw [hp3] at hout
      simp only at hout
      subst hout
      refine ⟨[r2, r3], ?_, ?_, ?_⟩
      · simp [h3a, h2a, hst1, StateTracker.set_current_scene]
      · simp [h3b, h2b, hst1, StateTracker.set_current_scene]
      · intro r hr
        simp only [List.mem_cons, List.mem_singleton] at hr
        rcases hr with rfl | rfl | h
        · exact ⟨Or.inl h2e, h2f⟩
        · exact ⟨Or.inr (Or.inl h3e), h3f⟩
        · cases h
    | ok c =>
      obtain ⟨hout, hst3⟩ := h3g c hb
      rw [hp3] at hout
      simp only at hout
      subst hout
      simp only
      obtain ⟨r4, h4a, h4b, h4c, h4d, h4e, h4f, h4g, h4h, h4i⟩ :=
        run_phase_4_spec env s2 c st3
      rcases hp4 : run_phase_4 env s2 c st3 with ⟨out4, st4⟩
      rw [hp4] at h4a h4b
      simp only at h4a h4b
      cases out4 with
      | error e4 =>
        refine ⟨[r2, r3, r4], ?_, ?_, ?_⟩
        · simp [h4a, h3a, h2a, hst1, StateTracker.set_current_scene]
        · simp [h4b, h3b, h2b, hst1, StateTracker.set_current_scene]
        · intro r hr
          simp only [List.mem_cons, List.mem_singleton] at hr
          rcases hr with rfl | rfl | rfl | h
          · exact ⟨Or.inl h2e, h2f⟩
          · exact ⟨Or.inr (Or.inl h3e), h3f⟩
          · exact ⟨Or.inr (Or.inr h4e), h4f⟩
          · cases h
      | ok instr =>
        obtain ⟨app, ha, hb2, hc⟩ := ih (idx + 1) (acc ++ [instr]) st4
        refine ⟨[r2, r3, r4] ++ app, ?_, ?_, ?_⟩
        · simp [ha, h4a, h3a, h2a, hst1, StateTracker.set_current_scene]
        · simp [hb2, h4b, h3b, h2b, hst1, StateTracker.set_current_scene]
        · intro r hr
          simp only [List.mem_append, List.mem_cons, List.mem_singleton] at hr
          rcases hr with (rfl | rfl | rfl | h) | happ
          · exact ⟨Or.inl h2e, h2f⟩
          · exact ⟨Or.inr (Or.inl h3e), h3f⟩
          · exact ⟨Or.inr (Or.inr h4e), h4f⟩
          · cases h
          · exact hc r happ



lemma processScenes_ok (env : Env) (hok : EnvScenesOk env)
    (scenes : List Scene) :
    ∀ (idx : Nat) (acc : List LightingInstruction) (st : RunnerSt),
    (∃ l, (processScenes env scenes idx acc st).1 = Except.ok l) ∧
    (processScenes env scenes idx acc st).2.result.final_status =
      st.result.final_status := by
  induction scenes with
  | nil =>
    intro idx acc st
    exact ⟨⟨acc, rfl⟩, rfl⟩
  | cons s rest ih =>
    intro idx acc st
    simp only [processScenes]
    set st1 : RunnerSt := { st with
      tracker := st.tracker.set_current_scene
        (s.scene_id.getD ("scene_" ++ pad3 idx)) idx } with hst1
    obtain ⟨r2, h2a, h2b, h2c, h2d, h2e, h2f, h2g, h2h⟩ :=
      run_phase_2_spec env s st1
    obtain ⟨e2, he2⟩ := hok.1 s
    have hr2succ := h2h e2 he2
    have hr2fail : r2.is_failed = false := by
      simp [PhaseResult.is_failed, hr2succ]
    rcases hp2 : run_phase_2 env s st1 with ⟨s2, st2⟩
    rw [hp2] at h2c
    simp only at h2c
    rw [hr2fail] at h2c
    simp only [Bool.false_eq_true, if_false] at h2c
    obtain ⟨r3, h3a, h3b, h3c, h3d, h3e, h3f, h3g, h3h⟩ :=
      run_phase_3_spec env s2 st2
    obtain ⟨c3, hc3⟩ := hok.2.1 s2
    obtain ⟨hout3, hr3succ⟩ := h3g c3 hc3
    have hr3fail : r3.is_failed = false := by
      simp [PhaseResult.is_failed, hr3succ]
    rcases hp3 : run_phase_3 env s2 st2 with ⟨out3, st3⟩
    rw [hp3] at h3c hout3
    simp only at h3c hout3
    subst hout3
    rw [hr3fail] at h3c
    simp only [Bool.false_eq_true, if_false] at h3c
    simp only
    obtain ⟨r4, h4a, h4b, h4c, h4d, h4e, h4f, h4g, h4h, h4i⟩ :=
      run_phase_4_spec env s2 c3 st3
    obtain ⟨i4, hi4, hv4⟩ := hok.2.2 s2
    obtain ⟨hout4, hr4succ⟩ := h4i i4 hi4 hv4
    have hr4fail : r4.is_failed = false := by
      simp [PhaseResult.is_failed, hr4succ]
    rcases hp4 : run_phase_4 env s2 c3 st3 with ⟨out4, st4⟩
    rw [hp4] at h4c hout4
    simp only at h4c hout4
    subst hout4
    rw [hr4fail] at h4c
    simp only [Bool.false_eq_true, if_false] at h4c
    simp only
    obtain ⟨⟨l, hl⟩, hfin⟩ := ih (idx + 1) (acc ++ [i4]) st4
    refine ⟨⟨l, hl⟩, ?_⟩
    rw [hfin, h4c, h3c, h2c]

lemma mark_complete_phase_results (p : PipelineResult) :
    p.mark_complete.phase_results = p.phase_results := by
  unfold PipelineResult.mark_complete
  split <;> rfl

lemma mark_complete_final_status (p : PipelineResult) :
    p.mark_complete.final_status =
      (if p.final_status = PhaseStatus.failed then PhaseStatus.failed
       else PhaseStatus.success) := by
  unfold PipelineResult.mark_complete
  split <;> simp_all

lemma add_phase_result_phase_results (p : PipelineResult) (r : PhaseResult) :
    (p.add_phase_result r).phase_results = p.phase_results ++ [r] := by
  unfold PipelineResult.add_phase_result
  split <;> rfl

lemma add_phase_result_final_status (p : PipelineResult) (r : PhaseResult) :
    (p.add_phase_result r).final_status =
      (if r.is_failed then PhaseStatus.failed else p.final_status) := by
  unfold PipelineResult.add_phase_result
  split <;> simp_all

lemma runTail_spec (env : Env) (cfg : PipelineConfig)
    (li : List LightingInstruction) (st : RunnerSt) :
    ∃ app : List PhaseResult,
      (runTail env cfg li st).result.phase_results =
        st.result.phase_results ++ app ∧
      (runTail env cfg li st).tracker.state.phase_results =
        st.tracker.state.phase_results ++ app ∧
      ∀ r ∈ app,
        (r.phase_name = "phase_5" ∨ r.phase_name = "phase_7" ∨
          r.phase_name = "phase_8") ∧ resInv r := by
  cases h5 : cfg.enable_phase_5 <;> cases h7 : cfg.enable_phase_7 <;>
    cases h8 : cfg.enable_phase_8 <;> cases hp5 : env.phase5 <;>
    · simp [runTail, run_phase_5, run_phase_7, h5, h7, h8, hp5,
        Bool.false_eq_true, if_true, if_false, skipPhase, addResult,
        completePhase, StateTracker.complete_phase, StateTracker.skip_phase,
        startPhase, logCall, StateTracker.start_phase, completePipeline,
        StateTracker.complete_pipeline, mark_complete_phase_results,
        add_phase_result_phase_results, List.append_assoc,
        List.singleton_append, List.cons_append, List.forall_mem_cons,
        resInv]



lemma runTail_final_status (env : Env) (cfg : PipelineConfig)
    (li : List LightingInstruction) (st : RunnerSt) :
    (runTail env cfg li st).result.final_status =
      (if st.result.final_status = PhaseStatus.failed ∨
          (cfg.enable_phase_5 = true ∧ env.phase5.isErr = true) then
        PhaseStatus.failed
      else PhaseStatus.success) := by
  cases h5 : cfg.enable_phase_5 <;> cases hp5 : env.phase5 <;>
    cases h7 : cfg.enable_phase_7 <;> cases h8 : cfg.enable_phase_8 <;>
    by_cases hf : st.result.final_status = PhaseStatus.failed <;>
    · simp [runTail, run_phase_5, run_phase_7, h5, h7, h8, hp5, hf,
        Phase5Outcome.isErr, skipPhase, addResult, completePhase,
        StateTracker.complete_phase, StateTracker.skip_phase, startPhase,
        logCall, StateTracker.start_phase, completePipeline,
        StateTracker.complete_pipeline, mark_complete_final_status,
        add_phase_result_final_status, PhaseResult.is_failed]

lemma run_eq_of_parse_ok (env : Env) (cfg : PipelineConfig)
    (path : String) (scenes : List Scene)
    (h : env.parse = Except.ok scenes) :
    ∃ (r1 : PhaseResult) (stA : RunnerSt),
      run env cfg path =
        finishRun env (env.timeline 0) (runScenesTail env cfg scenes stA) ∧
      stA.result.phase_results = [r1] ∧
      stA.tracker.state.phase_results = [] ∧
      stA.result.final_status = PhaseStatus.pending ∧
      stA.calls = ["parse"] ∧
      r1.phase_name = "phase_1" ∧ r1.status = PhaseStatus.success ∧
      resInv r1 := by
  simp only [run, runBody, run_phase_1, h]
  exact ⟨_, _, rfl, rfl, rfl, rfl, rfl, rfl, rfl,
    by simp [resInv, completePhase, StateTracker.complete_phase]⟩



lemma runScenesTail_results (env : Env) (cfg : PipelineConfig)
    (scenes : List Scene) (st : RunnerSt) :
    ∃ app : List PhaseResult,
      (runScenesTail env cfg scenes st).result.phase_results =
        st.result.phase_results ++ app ∧
      (runScenesTail env cfg scenes st).tracker.state.phase_results =
        st.tracker.state.phase_results ++ app ∧
      ∀ r ∈ app,
        (r.phase_name = "phase_2" ∨ r.phase_name = "phase_3" ∨
         r.phase_name = "phase_4" ∨ r.phase_name = "phase_5" ∨
         r.phase_name = "phase_7" ∨ r.phase_name = "phase_8") ∧
        resInv r := by
  obtain ⟨app1, ha1, hb1, hm1⟩ := processScenes_spec env scenes 0 [] st
  unfold runScenesTail
  rcases hps : processScenes env scenes 0 [] st with ⟨out, st1⟩
  rw [hps] at ha1 hb1
  simp only at ha1 hb1
  cases out with
  | error e =>
    refine ⟨app1, ?_, ?_, ?_⟩
    · simpa [onHardFailure, completePipeline, StateTracker.complete_pipeline]
        using ha1
    · simpa [onHardFailure, completePipeline, StateTracker.complete_pipeline]
        using hb1
    · intro r hr
      obtain ⟨hn, hi⟩ := hm1 r hr
      exact ⟨by tauto, hi⟩
  | ok li =>
    obtain ⟨app2, ha2, hb2, hm2⟩ := runTail_spec env cfg li st1
    refine ⟨app1 ++ app2, ?_, ?_, ?_⟩
    · simp [ha2, ha1]
    · simp [hb2, hb1]
    · intro r hr
      rcases List.mem_append.mp hr with hr1 | hr2
      · obtain ⟨hn, hi⟩ := hm1 r hr1
        exact ⟨by tauto, hi⟩
      · obtain ⟨hn, hi⟩ := hm2 r hr2
        exact ⟨by tauto, hi⟩

lemma runScenesTail_final_of_ok (env : Env) (cfg : PipelineConfig)
    (scenes : List Scene) (st : RunnerSt) (hok : EnvScenesOk env) :
    (runScenesTail env cfg scenes st).result.final_status =
      (if st.result.final_status = PhaseStatus.failed ∨
          (cfg.enable_phase_5 = true ∧ env.phase5.isErr = true) then
        PhaseStatus.failed
      else PhaseStatus.success) := by
  obtain ⟨⟨l, hl⟩, hfin⟩ := processScenes_ok env hok scenes 0 [] st
  unfold runScenesTail
  rcases hps : processScenes env scenes 0 [] st with ⟨out, st1⟩
  rw [hps] at hl hfin
  simp only at hl hfin
  subst hl
  simp only
  rw [runTail_final_status, hfin]

lemma runScenesTail_final_terminal (env : Env) (cfg : PipelineConfig)
    (scenes : List Scene) (st : RunnerSt) :
    (runScenesTail env cfg scenes st).result.final_status =
      PhaseStatus.failed ∨
    (runScenesTail env cfg scenes st).result.final_status =
      PhaseStatus.success := by
  unfold runScenesTail
  rcases hps : processScenes env scenes 0 [] st with ⟨out, st1⟩
  cases out with
  | error e => exact Or.inl rfl
  | ok li =>
    simp only
    rw [runTail_final_status]
    split
    · exact Or.inl rfl
    · exact Or.inr rfl

/-- Identity clock: the k-th wall-clock read returns k. -/
def tick : Nat → Nat := fun k => k

/-- A concrete scene. -/
def sceneOne : Scene := { scene_id := some "s1", content := "hello" }

/-- A concrete emotion analysis outcome. -/
def joy : Emotion := { primary_emotion := some "joy", confidence := 1 }

/-- A decision artifact satisfying the contract. -/
def goodInstruction : LightingInstruction :=
  { groups := [{ group_id := "g1", parameters := { intensity := 1 } }] }

/-- The rational 13/10, written without normalization so that kernel
reduction stays cheap. -/
def badIntensity : Rat := ⟨13, 10, by decide, by decide⟩

/-- A group violating the contract: intensity 13/10. -/
def badGroup : LightingGroup :=
  { group_id := "g1", parameters := { intensity := badIntensity } }

/-- A decision artifact violating the contract. -/
def badInstruction : LightingInstruction :=
  { groups := [badGroup] }

/-- One-scene input on which every collaborator succeeds. -/
def envHappy : Env :=
  { timeline := tick,
    parse := Except.ok [sceneOne],
    analyze_emotion := fun _ => Except.ok joy,
    build_context := fun _ => Except.ok "ctx",
    generate_instruction := fun _ => Except.ok goodInstruction,
    phase5 := Phase5Outcome.ok }

/-- Input whose parse raises. -/
def envParseFail : Env :=
  { envHappy with parse := Except.error "bad script" }

/-- Input on which the enabled simulation stage raises. -/
def envSimFail : Env :=
  { envHappy with phase5 := Phase5Outcome.error "sim boom" }

/-- Input on which emotion analysis raises. -/
def envEmotionFail : Env :=
  { envHappy with analyze_emotion := fun _ => Except.error "model down" }

/-- Input on which retrieval raises. -/
def envRetrieveFail : Env :=
  { envHappy with build_context := fun _ => Except.error "no index" }

/-- Input whose decision artifact has an out-of-range intensity. -/
def envBadDecision : Env :=
  { envHappy with generate_instruction := fun _ => Except.ok badInstruction }

/-- A group violating the contract the other way: its identifier is empty. -/
def emptyIdGroup : LightingGroup :=
  { group_id := "", parameters := { intensity := 1 } }

/-- A decision artifact whose only group has an empty identifier. -/
def emptyIdInstruction : LightingInstruction :=
  { groups := [emptyIdGroup] }

/-- Input whose decision artifact has a group with an empty identifier. -/
def envMissingId : Env :=
  { envHappy with
    generate_instruction := fun _ => Except.ok emptyIdInstruction }

/-- C2: if Parse fails, the returned result is Failed, holds exactly the one
failed phase_1 StageResult, no other collaborator is invoked, and run
returns normally (the model's run is a total function, so the fault cannot
propagate out of it). -/
theorem claim_C2 (env : Env) (cfg : PipelineConfig) (path msg : String)
    (h : env.parse = Except.error msg) :
    (run env cfg path).result.final_status = PhaseStatus.failed ∧
    (run env cfg path).result.phase_results.map
      (fun r => (r.phase_name, r.status, r.output, r.error_message)) =
      [("phase_1", PhaseStatus.failed, none, some msg)] ∧
    (run env cfg path).calls = ["parse"] := by
  simp only [run, runBody, run_phase_1, h]
  exact ⟨rfl, rfl, rfl⟩

/-- C2 witness at a concrete input. -/
theorem claim_C2_witness :
    (run envParseFail {} "s.txt").result.final_status = PhaseStatus.failed ∧
    (run envParseFail {} "s.txt").result.phase_results.map
      (fun r => (r.phase_name, r.status, r.output, r.error_message)) =
      [("phase_1", PhaseStatus.failed, none, some "bad script")] ∧
    (run envParseFail {} "s.txt").calls = ["parse"] :=
  claim_C2 envParseFail {} "s.txt" "bad script" rfl



lemma finishRun_final_status (env : Env) (t : Nat) (st : RunnerSt) :
    (finishRun env t st).result.final_status = st.result.final_status := rfl

lemma finishRun_phase_results (env : Env) (t : Nat) (st : RunnerSt) :
    (finishRun env t st).result.phase_results = st.result.phase_results := rfl

lemma finishRun_tracker (env : Env) (t : Nat) (st : RunnerSt) :
    (finishRun env t st).tracker = st.tracker := rfl

lemma finishRun_calls (env : Env) (t : Nat) (st : RunnerSt) :
    (finishRun env t st).calls = st.calls := rfl

/-- C7 amended: the total duration on the returned result is the wall-clock
span of the whole run, the last clock reading minus the first, not the sum of
the stage durations (which run() overwrites at its end). -/
theorem claim_C7_amended (env : Env) (cfg : PipelineConfig) (path : String) :
    (run env cfg path).result.total_duration_seconds =
      ((env.timeline ((run env cfg path).clock - 1) : Int) -
        (env.timeline 0 : Int)) := by
  simp only [run, finishRun, Nat.add_sub_cancel]

/-- C7 counterexample: on a concrete run the recorded total duration differs
from the sum of the constituent stage durations. -/
theorem claim_C7_counterexample :
    (run envParseFail {} "s.txt").result.total_duration_seconds ≠
      ((run envParseFail {} "s.txt").result.phase_results.map
        (fun r => r.duration_seconds)).sum := by decide

/-- C9 amended: RunResult.final_status is monotone (once failed, neither
add_phase_result nor mark_complete restores success, and every returned run
result is terminal), but this does not extend to the observable
ExecutionState status, which complete_pipeline overwrites. -/
theorem claim_C9_amended :
    (∀ (p : PipelineResult) (r : PhaseResult),
      p.final_status = PhaseStatus.failed →
      (p.add_phase_result r).final_status = PhaseStatus.failed) ∧
    (∀ p : PipelineResult, p.final_status = PhaseStatus.failed →
      p.mark_complete.final_status = PhaseStatus.failed) ∧
    (∀ (env : Env) (cfg : PipelineConfig) (path : String),
      (run env cfg path).result.final_status = PhaseStatus.failed ∨
      (run env cfg path).result.final_status = PhaseStatus.success) := by
  refine ⟨?_, ?_, ?_⟩
  · intro p r hp
    rw [add_phase_result_final_status, hp]
    split <;> rfl
  · intro p hp
    rw [mark_complete_final_status, hp]
    simp
  · intro env cfg path
    cases hparse : env.parse with
    | error msg =>
      left
      simp only [run, runBody, run_phase_1, hparse]
      rfl
    | ok scenes =>
      obtain ⟨r1, stA, hrun, _, _, _, _, _, _, _⟩ :=
        run_eq_of_parse_ok env cfg path scenes hparse
      rw [hrun, finishRun_final_status]
      exact runScenesTail_final_terminal env cfg scenes stA

/-- C9 amended witness at concrete inputs. -/
theorem claim_C9_amended_witness :
    (({ script_path := "s.txt", final_status := PhaseStatus.failed } :
        PipelineResult).add_phase_result
      { phase_name := "x", status := PhaseStatus.success }).final_status =
      PhaseStatus.failed ∧
    ({ script_path := "s.txt", final_status := PhaseStatus.failed } :
        PipelineResult).mark_complete.final_status = PhaseStatus.failed ∧
    ((run envHappy {} "s.txt").result.final_status = PhaseStatus.failed ∨
      (run envHappy {} "s.txt").result.final_status = PhaseStatus.success) :=
  ⟨claim_C9_amended.1 _ _ rfl, claim_C9_amended.2.1 _ rfl,
    claim_C9_amended.2.2 envHappy {} "s.txt"⟩

/-- C9 counterexample: the overall status of the externally observable
ExecutionState is not monotone.  complete_phase with a failed status sets it
to failed, and the complete_pipeline(SUCCESS) call at the end of the run
overwrites it with success; a whole run on an input whose optional emotion
stage fails ends with ExecutionState.status = success even though a failed
StageResult was recorded in that very state. -/
theorem claim_C9_counterexample :
    (StateTracker.init.complete_phase "phase_2" PhaseStatus.failed none
      (some "model down") 5).2.state.status = PhaseStatus.failed ∧
    (StateTracker.complete_pipeline
      (StateTracker.init.complete_phase "phase_2" PhaseStatus.failed none
        (some "model down") 5).2 PhaseStatus.success 6).state.status =
      PhaseStatus.success ∧
    (run envEmotionFail {} "s.txt").tracker.state.status =
      PhaseStatus.success ∧
    ((run envEmotionFail {} "s.txt").tracker.state.phase_results[0]?).map
      (fun r => (r.phase_name, r.status)) =
      some ("phase_2", PhaseStatus.failed) := by decide



lemma run_eq_of_parse_error (env : Env) (cfg : PipelineConfig)
    (path msg : String) (h : env.parse = Except.error msg) :
    ∃ r1 : PhaseResult,
      (run env cfg path).result.phase_results = [r1] ∧
      r1.phase_name = "phase_1" ∧
      r1.status = PhaseStatus.failed ∧
      r1.error_message = some msg ∧
      r1.output = none ∧
      (run env cfg path).result.final_status = PhaseStatus.failed ∧
      (run env cfg path).calls = ["parse"] ∧
      (run env cfg path).tracker.state.phase_results = [r1] := by
  simp only [run, runBody, run_phase_1, h]
  exact ⟨_, rfl, rfl, rfl, rfl, rfl, rfl, rfl, rfl⟩

/-- C1 counterexample: a run in which every REQUIRED stage succeeds but the
enabled optional simulation stage raises ends with final status failed, not
success; the optional failure flips the run status. -/
theorem claim_C1_counterexample :
    (run envSimFail {} "s.txt").result.phase_results.map
      (fun r => (r.phase_name, r.status)) =
      [("phase_1", PhaseStatus.success), ("phase_2", PhaseStatus.success),
       ("phase_3", PhaseStatus.success), ("phase_4", PhaseStatus.success),
       ("phase_5", PhaseStatus.failed), ("phase_7", PhaseStatus.skipped)] ∧
    (run envSimFail {} "s.txt").result.final_status = PhaseStatus.failed := by
  decide

/-- C1 amended: the final status is success exactly when no recorded stage
result is failed.  If all REQUIRED stages succeed and the optional stages do
not record a failed result, the run is success; but any failed stage result,
optional ones included, makes the final status failed, because
add_phase_result flips final_status on every failed result. -/
theorem claim_C1_amended :
    (∀ (env : Env) (cfg : PipelineConfig) (path : String)
        (scenes : List Scene),
      env.parse = Except.ok scenes → EnvScenesOk env →
      (cfg.enable_phase_5 = true → env.phase5.isErr = false) →
      (run env cfg path).result.final_status = PhaseStatus.success) ∧
    (∀ (env : Env) (cfg : PipelineConfig) (path : String)
        (scenes : List Scene),
      env.parse = Except.ok scenes → EnvScenesOk env →
      cfg.enable_phase_5 = true → env.phase5.isErr = true →
      (run env cfg path).result.final_status = PhaseStatus.failed) ∧
    (∀ (p : PipelineResult) (r : PhaseResult),
      r.status = PhaseStatus.failed →
      (p.add_phase_result r).final_status = PhaseStatus.failed) := by
  refine ⟨?_, ?_, ?_⟩
  · intro env cfg path scenes hparse hok h5
    obtain ⟨r1, stA, hrun, _, _, hfin, _, _, _, _⟩ :=
      run_eq_of_parse_ok env cfg path scenes hparse
    rw [hrun, finishRun_final_status,
      runScenesTail_final_of_ok env cfg scenes stA hok, hfin]
    have hcond : ¬(PhaseStatus.pending = PhaseStatus.failed ∨
        (cfg.enable_phase_5 = true ∧ env.phase5.isErr = true)) := by
      rintro (hc | ⟨he, hi⟩)
      · cases hc
      · rw [h5 he] at hi
        cases hi
    rw [if_neg hcond]
  · intro env cfg path scenes hparse hok h5 herr
    obtain ⟨r1, stA, hrun, _, _, hfin, _, _, _, _⟩ :=
      run_eq_of_parse_ok env cfg path scenes hparse
    rw [hrun, finishRun_final_status,
      runScenesTail_final_of_ok env cfg scenes stA hok]
    simp [h5, herr]
  · intro p r hr
    rw [add_phase_result_final_status]
    simp [PhaseResult.is_failed, hr]

/-- Proof that the all-success environment satisfies EnvScenesOk. -/
lemma envHappy_scenesOk : EnvScenesOk envHappy :=
  ⟨fun _ => ⟨joy, rfl⟩, fun _ => ⟨"ctx", rfl⟩,
    fun _ => ⟨goodInstruction, rfl, by decide⟩⟩

/-- Proof that the simulation-failure environment satisfies EnvScenesOk. -/
lemma envSimFail_scenesOk : EnvScenesOk envSimFail :=
  ⟨fun _ => ⟨joy, rfl⟩, fun _ => ⟨"ctx", rfl⟩,
    fun _ => ⟨goodInstruction, rfl, by decide⟩⟩

/-- C1 amended witness at concrete inputs. -/
theorem claim_C1_amended_witness :
    (run envHappy {} "s.txt").result.final_status = PhaseStatus.success ∧
    (run envSimFail {} "s.txt").result.final_status = PhaseStatus.failed ∧
    (({ script_path := "s.txt" } : PipelineResult).add_phase_result
      { phase_name := "phase_5", status := PhaseStatus.failed }).final_status =
      PhaseStatus.failed :=
  ⟨claim_C1_amended.1 envHappy {} "s.txt" [sceneOne] rfl envHappy_scenesOk
      (fun _ => rfl),
    claim_C1_amended.2.1 envSimFail {} "s.txt" [sceneOne] rfl
      envSimFail_scenesOk rfl rfl,
    claim_C1_amended.2.2 _ _ rfl⟩

/-- C6 amended: for every stage result recorded on a returned RunResult, the
error_message is present exactly when the status is failed or skipped (skips
carry their reason in error_message), and an output summary is present only
on successful results. -/
theorem claim_C6_amended (env : Env) (cfg : PipelineConfig) (path : String) :
    ∀ r ∈ (run env cfg path).result.phase_results, resInv r := by
  cases hparse : env.parse with
  | error msg =>
    obtain ⟨r1, hres, _, hstat, herr, hout, _, _, _⟩ :=
      run_eq_of_parse_error env cfg path msg hparse
    rw [hres]
    intro r hr
    rw [List.mem_singleton] at hr
    subst hr
    rw [resInv, hstat, herr, hout]
    simp
  | ok scenes =>
    obtain ⟨r1, stA, hrun, hres, htr, _, _, _, hstat1, hinv1⟩ :=
      run_eq_of_parse_ok env cfg path scenes hparse
    obtain ⟨app, ha, hb, hm⟩ := runScenesTail_results env cfg scenes stA
    rw [hrun, finishRun_phase_results, ha, hres]
    intro r hr
    rcases List.mem_append.mp hr with h1 | h2
    · rw [List.mem_singleton] at h1
      subst h1
      exact hinv1
    · exact (hm r h2).2

/-- C6 amended witness: the invariant instantiated at the concrete phase_1
result of a concrete run. -/
theorem claim_C6_amended_witness :
    resInv { phase_name := "phase_1", status := PhaseStatus.success,
             output := some (PhaseOutput.sceneCount 1),
             error_message := none, duration_seconds := 1 } :=
  claim_C6_amended envHappy {} "s.txt"
    { phase_name := "phase_1", status := PhaseStatus.success,
      output := some (PhaseOutput.sceneCount 1),
      error_message := none, duration_seconds := 1 } (by decide)

/-- C6 counterexample: the phase_5 stage result recorded when simulation is
disabled by configuration has status skipped with error_message set (the skip
reason), so error_message is not set only on failed results. -/
theorem claim_C6_counterexample :
    ((run envHappy
        { enable_phase_5 := false } "s.txt").result.phase_results[4]?).map
      (fun r => (r.status, r.error_message.isSome)) =
      some (PhaseStatus.skipped, true) := by decide

/-- C10: when Parse succeeds, the tracker is reset by start_pipeline only
after the Parse StageResult was appended to the previous (discarded) state,
so the ExecutionState observable through get_state never contains the
phase_1 result, and the success count of get_summary excludes it, while the
returned RunResult does contain it at the head. -/
theorem claim_C10 (env : Env) (cfg : PipelineConfig) (path : String)
    (scenes : List Scene) (h : env.parse = Except.ok scenes) :
    (∃ r1 : PhaseResult,
      (run env cfg path).result.phase_results =
        r1 :: (run env cfg path).tracker.get_state.phase_results ∧
      r1.phase_name = "phase_1" ∧ r1.status = PhaseStatus.success) ∧
    (∀ r ∈ (run env cfg path).tracker.get_state.phase_results,
      r.phase_name ≠ "phase_1") ∧
    ((run env cfg path).tracker.get_summary.phases_completed + 1 =
      ((run env cfg path).result.phase_results.filter
        (fun r => r.is_success)).length) := by
  obtain ⟨r1, stA, hrun, hres, htr, _, _, hname1, hstat1, _⟩ :=
    run_eq_of_parse_ok env cfg path scenes h
  obtain ⟨app, ha, hb, hm⟩ := runScenesTail_results env cfg scenes stA
  have hres2 : (run env cfg path).result.phase_results = r1 :: app := by
    rw [hrun, finishRun_phase_results, ha, hres]
    simp
  have hstate : (run env cfg path).tracker.get_state.phase_results = app := by
    rw [hrun, finishRun_tracker, StateTracker.get_state, hb, htr]
    simp
  refine ⟨⟨r1, ?_, hname1, hstat1⟩, ?_, ?_⟩
  · rw [hres2, hstate]
  · rw [hstate]
    intro r hr
    obtain ⟨hn, _⟩ := hm r hr
    rcases hn with hx | hx | hx | hx | hx | hx <;> (rw [hx]; decide)
  · have hsum : (run env cfg path).tracker.get_summary.phases_completed =
        (app.filter (fun r => r.is_success)).length := by
      rw [StateTracker.get_summary]
      simp only
      rw [show (run env cfg path).tracker.state.phase_results = app from
        hstate]
    have hr1s : r1.is_success = true := by
      simp [PhaseResult.is_success, hstat1]
    rw [hsum, hres2, List.filter_cons, hr1s]
    simp [Nat.add_comm]

/-- C10 witness at a concrete input: the summary success count excludes the
phase_1 result that the returned RunResult does contain. -/
theorem claim_C10_witness :
    (run envHappy {} "s.txt").tracker.get_summary.phases_completed + 1 =
      ((run envHappy {} "s.txt").result.phase_results.filter
        (fun r => r.is_success)).length :=
  (claim_C10 envHappy {} "s.txt" [sceneOne] rfl).2.2

/-- A group satisfying the contract. -/
def groupOk (g : LightingGroup) : Prop :=
  g.group_id ≠ "" ∧ 0 ≤ g.parameters.intensity ∧ g.parameters.intensity ≤ 1

lemma validateGroups_ok (gs : List LightingGroup)
    (h : ∀ g ∈ gs, groupOk g) : validateGroups gs = Except.ok () := by
  induction gs with
  | nil => rfl
  | cons g rest ih =>
    obtain ⟨hid, hlo, hhi⟩ := h g (List.mem_cons_self g rest)
    have hnb : ¬(g.parameters.intensity < 0 ∨ g.parameters.intensity > 1) := by
      rintro (hc | hc)
      · exact absurd hlo (not_le.mpr hc)
      · exact absurd hhi (not_le.mpr hc)
    unfold validateGroups
    rw [if_neg hid, if_neg hnb]
    exact ih (fun g2 hg2 => h g2 (List.mem_cons_of_mem g hg2))

lemma validateGroups_err_intensity (pre : List LightingGroup)
    (g : LightingGroup) (rest : List LightingGroup)
    (hpre : ∀ g2 ∈ pre, groupOk g2)
    (hid : g.group_id ≠ "")
    (hbad : g.parameters.intensity < 0 ∨ g.parameters.intensity > 1) :
    validateGroups (pre ++ g :: rest) =
      Except.error ("Intensity " ++ ratStr g.parameters.intensity ++
        " out of range [0, 1]") := by
  induction pre with
  | nil =>
    rw [List.nil_append]
    unfold validateGroups
    rw [if_neg hid, if_pos hbad]
  | cons p pre ih =>
    obtain ⟨hpid, hplo, hphi⟩ := hpre p (List.mem_cons_self p pre)
    have hnb : ¬(p.parameters.intensity < 0 ∨ p.parameters.intensity > 1) := by
      rintro (hc | hc)
      · exact absurd hplo (not_le.mpr hc)
      · exact absurd hphi (not_le.mpr hc)
    rw [List.cons_append]
    unfold validateGroups
    rw [if_neg hpid, if_neg hnb]
    exact ih (fun g2 hg2 => hpre g2 (List.mem_cons_of_mem p hg2))

lemma validateGroups_err_missing_id (pre : List LightingGroup)
    (g : LightingGroup) (rest : List LightingGroup)
    (hpre : ∀ g2 ∈ pre, groupOk g2)
    (hid : g.group_id = "") :
    validateGroups (pre ++ g :: rest) =
      Except.error "Missing group_id in LightingInstruction" := by
  induction pre with
  | nil =>
    rw [List.nil_append]
    unfold validateGroups
    rw [if_pos hid]
  | cons p pre ih =>
    obtain ⟨hpid, hplo, hphi⟩ := hpre p (List.mem_cons_self p pre)
    have hnb : ¬(p.parameters.intensity < 0 ∨ p.parameters.intensity > 1) := by
      rintro (hc | hc)
      · exact absurd hplo (not_le.mpr hc)
      · exact absurd hphi (not_le.mpr hc)
    rw [List.cons_append]
    unfold validateGroups
    rw [if_neg hpid, if_neg hnb]
    exact ih (fun g2 hg2 => hpre g2 (List.mem_cons_of_mem p hg2))

lemma onHardFailure_phase_results (env : Env) (st : RunnerSt) :
    (onHardFailure env st).result.phase_results =
      st.result.phase_results := rfl

lemma onHardFailure_final_status (env : Env) (st : RunnerSt) :
    (onHardFailure env st).result.final_status = PhaseStatus.failed := rfl

lemma onHardFailure_calls (env : Env) (st : RunnerSt) :
    (onHardFailure env st).calls = st.calls := rfl

lemma last_append_singleton {α : Type} (l : List α) (a : α) :
    (l ++ [a]).getLast? = some a := by
  rw [List.getLast?_append_cons]
  rfl



/-- C3: the contract check at the Decide boundary.  Conforming artifacts
(non-empty group_id, intensity within the closed interval) pass the check;
an artifact with an out-of-range intensity fails it with a message carrying
the offending value; an artifact containing a group with an empty (missing)
identifier fails it with the missing-group_id message; and a run whose
decision artifact fails the check — for either violation — aborts with
final status failed, recording a failed phase_4 result holding that
message, with the later simulate stage never invoked. -/
theorem claim_C3 :
    (∀ inst : LightingInstruction,
      (∀ g ∈ inst.groups, groupOk g) →
      validate_lighting_instruction inst = Except.ok ()) ∧
    (∀ (pre rest : List LightingGroup) (g : LightingGroup),
      (∀ g2 ∈ pre, groupOk g2) → g.group_id ≠ "" →
      (g.parameters.intensity < 0 ∨ g.parameters.intensity > 1) →
      validate_lighting_instruction { groups := pre ++ g :: rest } =
        Except.error ("Intensity " ++ ratStr g.parameters.intensity ++
          " out of range [0, 1]")) ∧
    (∀ (pre rest : List LightingGroup) (g : LightingGroup),
      (∀ g2 ∈ pre, groupOk g2) → g.group_id = "" →
      validate_lighting_instruction { groups := pre ++ g :: rest } =
        Except.error "Missing group_id in LightingInstruction") ∧
    (∀ (env : Env) (cfg : PipelineConfig) (path : String) (s : Scene)
        (inst : LightingInstruction) (v : String),
      env.parse = Except.ok [s] →
      (∀ sc, ∃ c, env.build_context sc = Except.ok c) →
      (∀ sc, env.generate_instruction sc = Except.ok inst) →
      validate_lighting_instruction inst = Except.error v →
      (run env cfg path).result.final_status = PhaseStatus.failed ∧
      (∃ r4 : PhaseResult,
        (run env cfg path).result.phase_results.getLast? = some r4 ∧
        r4.phase_name = "phase_4" ∧ r4.status = PhaseStatus.failed ∧
        r4.error_message = some v) ∧
      "simulate" ∉ (run env cfg path).calls ∧
      (run env cfg path).result.phase_results.length = 4) := by
  refine ⟨?_, ?_, ?_, ?_⟩
  · intro inst h
    exact validateGroups_ok inst.groups h
  · intro pre rest g hpre hid hbad
    exact validateGroups_err_intensity pre g rest hpre hid hbad
  · intro pre rest g hpre hid
    exact validateGroups_err_missing_id pre g rest hpre hid
  · intro env cfg path s inst v hparse hctx hdec hviol
    obtain ⟨r1, stA, hrun, hres, htr, hfin, hcalls, hname1, hstat1, hinv1⟩ :=
      run_eq_of_parse_ok env cfg path [s] hparse
    rw [hrun]
    unfold runScenesTail
    simp only [processScenes]
    set st1 : RunnerSt := { stA with
      tracker := stA.tracker.set_current_scene
        (s.scene_id.getD ("scene_" ++ pad3 0)) 0 } with hst1
    obtain ⟨r2, h2a, h2b, h2c, h2d, h2e, h2f, h2g, h2h⟩ :=
      run_phase_2_spec env s st1
    rcases hp2 : run_phase_2 env s st1 with ⟨s2, st2⟩
    rw [hp2] at h2a h2d
    simp only at h2a h2d
    obtain ⟨r3, h3a, h3b, h3c, h3d, h3e, h3f, h3g, h3h⟩ :=
      run_phase_3_spec env s2 st2
    obtain ⟨c, hc⟩ := hctx s2
    obtain ⟨hout3, hr3succ⟩ := h3g c hc
    rcases hp3 : run_phase_3 env s2 st2 with ⟨out3, st3⟩
    rw [hp3] at h3a h3d hout3
    simp only at h3a h3d hout3
    subst hout3
    try simp only
    obtain ⟨r4, h4a, h4b, h4c, h4d, h4e, h4f, h4g, h4h, h4i⟩ :=
      run_phase_4_spec env s2 c st3
    obtain ⟨hout4, hr4fail, hr4err⟩ := h4h inst v (hdec s2) hviol
    rcases hp4 : run_phase_4 env s2 c st3 with ⟨out4, st4⟩
    rw [hp4] at h4a h4d hout4
    simp only at h4a h4d hout4
    subst hout4
    try simp only
    refine ⟨rfl, ⟨r4, ?_, h4e, hr4fail, hr4err⟩, ?_, ?_⟩
    · rw [finishRun_phase_results, onHardFailure_phase_results, h4a]
      exact last_append_singleton _ r4
    · rw [finishRun_calls, onHardFailure_calls, h4d, h3d, h2d]
      rw [hcalls]
      decide
    · rw [finishRun_phase_results, onHardFailure_phase_results, h4a, h3a,
        h2a]
      rw [hres]
      simp

/-- C3 witness at concrete inputs: intensity 13/10 for the range violation
and an empty group identifier for the missing-identifier violation, each
also driven through a whole run that aborts with the respective message. -/
theorem claim_C3_witness :
    validate_lighting_instruction goodInstruction = Except.ok () ∧
    validate_lighting_instruction badInstruction =
      Except.error "Intensity 13/10 out of range [0, 1]" ∧
    validate_lighting_instruction emptyIdInstruction =
      Except.error "Missing group_id in LightingInstruction" ∧
    (run envBadDecision {} "s.txt").result.final_status =
      PhaseStatus.failed ∧
    ((run envBadDecision {} "s.txt").result.phase_results.getLast?).map
      (fun r => (r.phase_name, r.status, r.error_message)) =
      some ("phase_4", PhaseStatus.failed,
        some "Intensity 13/10 out of range [0, 1]") ∧
    "simulate" ∉ (run envBadDecision {} "s.txt").calls ∧
    (run envMissingId {} "s.txt").result.final_status =
      PhaseStatus.failed ∧
    ((run envMissingId {} "s.txt").result.phase_results.getLast?).map
      (fun r => (r.phase_name, r.status, r.error_message)) =
      some ("phase_4", PhaseStatus.failed,
        some "Missing group_id in LightingInstruction") ∧
    "simulate" ∉ (run envMissingId {} "s.txt").calls := by
  have h3 := claim_C3.2.2.2 envBadDecision {} "s.txt" sceneOne
    badInstruction "Intensity 13/10 out of range [0, 1]" rfl
    (fun _ => ⟨"ctx", rfl⟩) (fun _ => rfl) (by decide)
  have h4 := claim_C3.2.2.2 envMissingId {} "s.txt" sceneOne
    emptyIdInstruction "Missing group_id in LightingInstruction" rfl
    (fun _ => ⟨"ctx", rfl⟩) (fun _ => rfl) (by decide)
  have h1 := claim_C3.1 goodInstruction (by
    intro g hg
    simp only [goodInstruction, List.mem_singleton] at hg
    subst hg
    exact ⟨by decide, by decide, by decide⟩)
  have h2 := claim_C3.2.1 [] [] badGroup (by simp) (by decide) (by decide)
  have h2b := claim_C3.2.2.1 [] [] emptyIdGroup (by simp) rfl
  exact ⟨h1, by simpa using h2, by simpa using h2b, h3.1, by decide,
    h3.2.2.1, h4.1, by decide, h4.2.2.1⟩

/-- C4 counterexample: with one scene and a raising Retrieve, the returned
result records three stage results, not two: the Enrich (phase_2) stage
always records a result for the scene before Retrieve runs. -/
theorem claim_C4_counterexample :
    (run envRetrieveFail {} "s.txt").result.phase_results.length = 3 ∧
    (run envRetrieveFail {} "s.txt").result.phase_results.map
      (fun r => (r.phase_name, r.status)) =
      [("phase_1", PhaseStatus.success), ("phase_2", PhaseStatus.success),
       ("phase_3", PhaseStatus.failed)] ∧
    (run envRetrieveFail {} "s.txt").result.final_status =
      PhaseStatus.failed ∧
    "decide" ∉ (run envRetrieveFail {} "s.txt").calls := by decide

/-- C4 amended: for a one-scene input where Parse succeeds and Retrieve
raises, the run ends failed with exactly three stage results: Parse success,
Enrich (success or failed), Retrieve failed; Decide is never invoked. -/
theorem claim_C4_amended (env : Env) (cfg : PipelineConfig) (path : String)
    (s : Scene) (msg : String)
    (hparse : env.parse = Except.ok [s])
    (hctx : ∀ sc, env.build_context sc = Except.error msg) :
    (run env cfg path).result.final_status = PhaseStatus.failed ∧
    (∃ st2 : PhaseStatus,
      (run env cfg path).result.phase_results.map
        (fun r => (r.phase_name, r.status)) =
        [("phase_1", PhaseStatus.success), ("phase_2", st2),
         ("phase_3", PhaseStatus.failed)] ∧
      (st2 = PhaseStatus.success ∨ st2 = PhaseStatus.failed)) ∧
    "decide" ∉ (run env cfg path).calls ∧
    (run env cfg path).result.phase_results.length = 3 := by
  obtain ⟨r1, stA, hrun, hres, htr, hfin, hcalls, hname1, hstat1, hinv1⟩ :=
    run_eq_of_parse_ok env cfg path [s] hparse
  rw [hrun]
  unfold runScenesTail
  simp only [processScenes]
  set st1 : RunnerSt := { stA with
    tracker := stA.tracker.set_current_scene
      (s.scene_id.getD ("scene_" ++ pad3 0)) 0 } with hst1
  obtain ⟨r2, h2a, h2b, h2c, h2d, h2e, h2f, h2g, h2h⟩ :=
    run_phase_2_spec env s st1
  rcases hp2 : run_phase_2 env s st1 with ⟨s2, st2⟩
  rw [hp2] at h2a h2d
  simp only at h2a h2d
  obtain ⟨r3, h3a, h3b, h3c, h3d, h3e, h3f, h3g, h3h⟩ :=
    run_phase_3_spec env s2 st2
  obtain ⟨hout3, hr3fail, hr3err⟩ := h3h msg (hctx s2)
  rcases hp3 : run_phase_3 env s2 st2 with ⟨out3, st3⟩
  rw [hp3] at h3a h3d hout3
  simp only at h3a h3d hout3
  subst hout3
  try simp only
  refine ⟨rfl, ⟨r2.status, ?_, h2g⟩, ?_, ?_⟩
  · rw [finishRun_phase_results, onHardFailure_phase_results, h3a, h2a, hres]
    simp [hname1, hstat1, h2e, h3e, hr3fail]
  · rw [finishRun_calls, onHardFailure_calls, h3d, h2d, hcalls]
    decide
  · rw [finishRun_phase_results, onHardFailure_phase_results, h3a, h2a, hres]
    simp

/-- C4 amended witness at a concrete input. -/
theorem claim_C4_amended_witness :
    (run envRetrieveFail {} "s.txt").result.final_status =
      PhaseStatus.failed ∧
    (run envRetrieveFail {} "s.txt").result.phase_results.map
      (fun r => (r.phase_name, r.status)) =
      [("phase_1", PhaseStatus.success), ("phase_2", PhaseStatus.success),
       ("phase_3", PhaseStatus.failed)] ∧
    "decide" ∉ (run envRetrieveFail {} "s.txt").calls ∧
    (run envRetrieveFail {} "s.txt").result.phase_results.length = 3 := by
  have h := claim_C4_amended envRetrieveFail {} "s.txt" sceneOne "no index"
    rfl (fun _ => rfl)
  exact ⟨h.1, by decide, h.2.2.1, h.2.2.2⟩

/-- The step which writes a completed worker result into its slot. -/
def setSlot {α : Type} (f : Nat → α) (acc : List (Option α)) (j : Nat) :
    List (Option α) :=
  acc.set j (some (f j))

lemma foldl_setSlot_length {α : Type} (f : Nat → α) (sched : List Nat) :
    ∀ acc : List (Option α),
      (sched.foldl (setSlot f) acc).length = acc.length := by
  induction sched with
  | nil => intro acc; rfl
  | cons j rest ih =>
    intro acc
    rw [List.foldl_cons, ih]
    simp [setSlot]

lemma foldl_setSlot_not_mem {α : Type} (f : Nat → α) (sched : List Nat)
    (i : Nat) :
    ∀ acc : List (Option α), i ∉ sched →
      (sched.foldl (setSlot f) acc)[i]? = acc[i]? := by
  induction sched with
  | nil => intro acc _; rfl
  | cons j rest ih =>
    intro acc hmem
    rw [List.foldl_cons, ih _ (fun hr => hmem (List.mem_cons_of_mem j hr))]
    have hne : j ≠ i := by
      intro he
      exact hmem (he ▸ List.mem_cons_self j rest)
    exact List.getElem?_set_ne hne

lemma foldl_setSlot_mem {α : Type} (f : Nat → α) (sched : List Nat)
    (i : Nat) :
    ∀ acc : List (Option α), i ∈ sched → i < acc.length →
      (sched.foldl (setSlot f) acc)[i]? = some (some (f i)) := by
  induction sched with
  | nil =>
    intro acc h _
    cases h
  | cons j rest ih =>
    intro acc hmem hlen
    rw [List.foldl_cons]
    by_cases hr : i ∈ rest
    · exact ih _ hr (by simpa [setSlot] using hlen)
    · have hij : i = j := by
        rcases List.mem_cons.mp hmem with h | h
        · exact h
        · exact absurd h hr
      subst hij
      rw [foldl_setSlot_not_mem f rest i _ hr]
      exact List.getElem?_set_eq_of_lt _ hlen

end Phase6

namespace Phase6

lemma run_parallel_eq_foldl (cfg : PipelineConfig) (envOf : Nat → Env)
    (paths : List String) (workerFault : Nat → Option String)
    (sched : List Nat) :
    run_parallel cfg envOf paths workerFault sched =
      sched.foldl (setSlot (workerOutcome cfg envOf paths workerFault))
        (List.replicate paths.length none) := rfl

lemma run_sequential_length (cfg : PipelineConfig) (envOf : Nat → Env)
    (paths : List String) : ∀ k,
    (run_sequential cfg envOf paths k).length = paths.length := by
  induction paths with
  | nil => intro k; rfl
  | cons p rest ih =>
    intro k
    simp [run_sequential, ih]

lemma run_sequential_getElem (cfg : PipelineConfig) (envOf : Nat → Env)
    (paths : List String) : ∀ k i, i < paths.length →
    (run_sequential cfg envOf paths k)[i]? =
      some (run_single cfg (envOf (k + i)) (paths.getD i "")) := by
  induction paths with
  | nil =>
    intro k i h
    cases h
  | cons p rest ih =>
    intro k i h
    cases i with
    | zero => simp [run_sequential]
    | succ n =>
      have hkn : k + 1 + n = k + (n + 1) := by omega
      simp only [run_sequential, List.getElem?_cons_succ]
      rw [ih (k + 1) n (Nat.lt_of_succ_lt_succ h), hkn]
      rfl

/-- C8: batch results are index-aligned with the inputs in both modes.  The
sequential executor maps inputs in order; the parallel executor writes each
slot exactly once, and for every completion order (any permutation of the
indices) position i holds the run result of input i. -/
theorem claim_C8 (cfg : PipelineConfig) (envOf : Nat → Env)
    (paths : List String) (workerFault : Nat → Option String)
    (sched : List Nat)
    (hsched : sched.Perm (List.range paths.length))
    (hfault : ∀ i, workerFault i = none) :
    (run_sequential cfg envOf paths 0).length = paths.length ∧
    (∀ i, i < paths.length →
      (run_sequential cfg envOf paths 0)[i]? =
        some (run_single cfg (envOf i) (paths.getD i ""))) ∧
    (run_parallel cfg envOf paths workerFault sched).length =
      paths.length ∧
    (∀ i, i < paths.length →
      (run_parallel cfg envOf paths workerFault sched)[i]? =
        some (some (run_single cfg (envOf i) (paths.getD i "")))) := by
  refine ⟨run_sequential_length cfg envOf paths 0, ?_, ?_, ?_⟩
  · intro i h
    simpa using run_sequential_getElem cfg envOf paths 0 i h
  · rw [run_parallel_eq_foldl, foldl_setSlot_length]
    exact List.length_replicate _ _
  · intro i h
    have hmem : i ∈ sched := hsched.mem_iff.mpr (List.mem_range.mpr h)
    have hlen : i < (List.replicate paths.length
        (none : Option PipelineResult)).length := by
      rwa [List.length_replicate]
    rw [run_parallel_eq_foldl, foldl_setSlot_mem _ sched i _ hmem hlen]
    unfold workerOutcome
    rw [hfault i]

/-- C8 witness at concrete inputs, with a reversed completion order. -/
theorem claim_C8_witness :
    (run_sequential {} (fun _ => envParseFail) ["a.txt", "b.txt"] 0).length
      = 2 ∧
    (run_sequential {} (fun _ => envParseFail) ["a.txt", "b.txt"] 0)[0]? =
      some (run_single {} envParseFail (["a.txt", "b.txt"].getD 0 "")) ∧
    (run_sequential {} (fun _ => envParseFail) ["a.txt", "b.txt"] 0)[1]? =
      some (run_single {} envParseFail (["a.txt", "b.txt"].getD 1 "")) ∧
    (run_parallel {} (fun _ => envParseFail) ["a.txt", "b.txt"]
      (fun _ => none) [1, 0]).length = 2 ∧
    (run_parallel {} (fun _ => envParseFail) ["a.txt", "b.txt"]
      (fun _ => none) [1, 0])[0]? =
      some (some (run_single {} envParseFail
        (["a.txt", "b.txt"].getD 0 ""))) ∧
    (run_parallel {} (fun _ => envParseFail) ["a.txt", "b.txt"]
      (fun _ => none) [1, 0])[1]? =
      some (some (run_single {} envParseFail
        (["a.txt", "b.txt"].getD 1 ""))) := by
  have h := claim_C8 {} (fun _ => envParseFail) ["a.txt", "b.txt"]
    (fun _ => none) [1, 0] (by decide) (fun _ => rfl)
  exact ⟨h.1, h.2.1 0 (by decide), h.2.1 1 (by decide), h.2.2.1,
    h.2.2.2 0 (by decide), h.2.2.2 1 (by decide)⟩



/-- C5 counterexample: the placeholder stored for a crashed worker is
PipelineResult(script_path, final_status=FAILED) with all other fields
defaulted; its phase_results list is empty, and the PipelineResult dataclass
has no error-message field, so the placeholder carries no error message. -/
theorem claim_C5_counterexample :
    run_parallel {} (fun _ => envParseFail) ["a.txt"]
      (fun _ => some "boom") [0] = [some (failedPlaceholder "a.txt")] ∧
    (failedPlaceholder "a.txt").final_status = PhaseStatus.failed ∧
    (failedPlaceholder "a.txt").phase_results = [] := by decide

/-- C5 amended: when worker i crashes, slot i receives the failed
placeholder (empty phase_results, failed status, no error message recorded
on the result; the message is only logged), and every other slot holds
exactly what it would hold in a batch without that failure. -/
theorem claim_C5_amended (cfg : PipelineConfig) (envOf : Nat → Env)
    (paths : List String) (workerFault : Nat → Option String)
    (sched : List Nat) (i : Nat) (msg : String)
    (hsched : sched.Perm (List.range paths.length))
    (hfault : workerFault i = some msg)
    (hothers : ∀ j, j ≠ i → workerFault j = none) :
    (∀ j, j < paths.length → j ≠ i →
      (run_parallel cfg envOf paths workerFault sched)[j]? =
        (run_parallel cfg envOf paths (fun _ => none) sched)[j]?) ∧
    (i < paths.length →
      (run_parallel cfg envOf paths workerFault sched)[i]? =
        some (some (failedPlaceholder (paths.getD i "")))) ∧
    (failedPlaceholder (paths.getD i "")).phase_results = [] ∧
    (failedPlaceholder (paths.getD i "")).final_status =
      PhaseStatus.failed := by
  refine ⟨?_, ?_, rfl, rfl⟩
  · intro j hj hne
    have hmem : j ∈ sched := hsched.mem_iff.mpr (List.mem_range.mpr hj)
    have hlen : j < (List.replicate paths.length
        (none : Option PipelineResult)).length := by
      rwa [List.length_replicate]
    rw [run_parallel_eq_foldl, foldl_setSlot_mem _ sched j _ hmem hlen,
      run_parallel_eq_foldl, foldl_setSlot_mem _ sched j _ hmem hlen]
    unfold workerOutcome
    rw [hothers j hne]
  · intro hi
    have hmem : i ∈ sched := hsched.mem_iff.mpr (List.mem_range.mpr hi)
    have hlen : i < (List.replicate paths.length
        (none : Option PipelineResult)).length := by
      rwa [List.length_replicate]
    rw [run_parallel_eq_foldl, foldl_setSlot_mem _ sched i _ hmem hlen]
    unfold workerOutcome
    rw [hfault]

/-- C5 amended witness at concrete inputs: worker 0 of 2 crashes; slot 1 is
the same as in the batch without the crash, slot 0 holds the placeholder. -/
theorem claim_C5_amended_witness :
    (run_parallel {} (fun _ => envParseFail) ["a.txt", "b.txt"]
      (fun j => if j = 0 then some "boom" else none) [1, 0])[1]? =
      (run_parallel {} (fun _ => envParseFail) ["a.txt", "b.txt"]
        (fun _ => none) [1, 0])[1]? ∧
    (run_parallel {} (fun _ => envParseFail) ["a.txt", "b.txt"]
      (fun j => if j = 0 then some "boom" else none) [1, 0])[0]? =
      some (some (failedPlaceholder (["a.txt", "b.txt"].getD 0 ""))) ∧
    (failedPlaceholder (["a.txt", "b.txt"].getD 0 "")).phase_results = [] ∧
    (failedPlaceholder (["a.txt", "b.txt"].getD 0 "")).final_status =
      PhaseStatus.failed := by
  have h := claim_C5_amended {} (fun _ => envParseFail) ["a.txt", "b.txt"]
    (fun j => if j = 0 then some "boom" else none) [1, 0] 0 "boom"
    (by decide) rfl (fun j hj => if_neg hj)
  exact ⟨h.1 1 (by decide) (by decide), h.2.1 (by decide), h.2.2.1,
    h.2.2.2⟩

end Phase6
